import Mathlib

/-!
Verification of the OCPI synchronization engine (`CpoOCPIClient` and the
`OCPIPushLocationsTask` scheduler wrapper).

The TypeScript source is shallowly embedded as pure Lean functions.
External collaborators (the HTTP transport, MongoDB storage layers,
lodash helpers) are represented by explicit parameters: every remote
call's outcome is an input (a response value or an oracle function),
and every storage read is an input list.  Remote calls actually issued
are returned as explicit traces so that "performs no remote call"
claims are statable.  JavaScript falsiness of strings is modelled by
the empty string, absence of object fields by `Option`, monetary and
energy amounts (IEEE doubles in the source, used only with exact
arithmetic here) by `Rat`, and timestamps by `Nat` seconds.
-/

namespace EvServer

/-- OCPI session status enum (`OCPISessionStatus` in the source). -/
inductive OCPISessionStatus where
  | pending
  | active
  | completed
  | invalid
deriving DecidableEq, Repr

/-- OCPI auth method enum (`OCPIAuthMethod`). -/
inductive OCPIAuthMethod where
  | authRequest
  | whitelist
deriving DecidableEq, Repr

/-- OCPI EVSE status enum (`OCPIEvseStatus`). -/
inductive OCPIEvseStatus where
  | available
  | blocked
  | charging
  | removed
  | unknown
deriving DecidableEq, Repr

/-- One EVSE inside a location, as produced by `OCPIMapping.getAllLocations`
with the `addChargeBoxID` option (fields used by `sendEVSEStatuses`).
An empty string models a JS-falsy `uid`. -/
structure OCPIEvse where
  uid : String
  evse_id : String
  chargeBoxId : String
  status : OCPIEvseStatus
deriving DecidableEq, Repr

/-- An OCPI location; `evses` is `none` when the JS field is absent. -/
structure OCPILocation where
  id : String
  name : String
  evses : Option (List OCPIEvse)
deriving DecidableEq, Repr

/-- An OCPI token (the fields the client reads: `uid`, `auth_id`). -/
structure OCPIToken where
  uid : String
  auth_id : String
deriving DecidableEq, Repr

/-- OCPI session object built and mutated by the session lifecycle
functions.  `charging_periods` content is opaque to every claim and is
modelled as an abstract list of markers supplied by the (external)
`OCPIMapping.buildChargingPeriods`. -/
structure OCPISession where
  id : String
  start_datetime : Nat
  end_datetime : Option Nat
  kwh : Rat
  total_cost : Rat
  auth_method : OCPIAuthMethod
  auth_id : String
  location : OCPILocation
  currency : String
  status : OCPISessionStatus
  authorization_id : String
  last_updated : Nat
  charging_periods : Option (List Nat)
deriving DecidableEq, Repr

/-- OCPI charge detail record built by `postCdr`. -/
structure OCPICdr where
  id : String
  start_date_time : Nat
  stop_date_time : Nat
  total_parking_time : Nat
  total_time : Rat
  total_energy : Rat
  total_cost : Rat
  currency : String
  auth_id : String
  authorization_id : String
  auth_method : OCPIAuthMethod
  location : OCPILocation
  charging_periods : List Nat
  last_updated : Nat
deriving DecidableEq, Repr

/-- The `ocpiData` sub-object of a transaction. -/
structure OcpiData where
  session : Option OCPISession
  cdr : Option OCPICdr
  cdrCheckedOn : Option Nat
  sessionCheckedOn : Option Nat
deriving DecidableEq, Repr

/-- The stop record of a finalized transaction. -/
structure TransactionStop where
  timestamp : Nat
  totalConsumptionWh : Nat
  roundedPrice : Rat
  totalInactivitySecs : Nat
  totalDurationSecs : Nat
deriving DecidableEq, Repr

/-- A local charging transaction (the fields the OCPI client reads). -/
structure Transaction where
  id : Nat
  chargeBoxID : String
  connectorId : Nat
  timestamp : Nat
  currentCumulatedPrice : Rat
  currentTotalConsumptionWh : Nat
  currentTimestamp : Nat
  priceUnit : String
  stop : Option TransactionStop
  ocpiData : Option OcpiData
deriving DecidableEq, Repr

/-- The persisted result of the previous status-broadcast job
(`lastPatchJobResult` on the endpoint).  `chargeBoxIDsInFailure` is an
`Option` because the source truthy-checks the field itself. -/
structure OCPILastPatchJobResult where
  successNbr : Nat
  failureNbr : Nat
  totalNbr : Nat
  chargeBoxIDsInFailure : Option (List String)
  chargeBoxIDsInSuccess : List String
deriving DecidableEq, Repr

/-- The slice of an OCPI endpoint record that the status-broadcast job
reads and writes. -/
structure OCPIEndpointModel where
  lastPatchJobOn : Option Nat
  lastPatchJobResult : Option OCPILastPatchJobResult
deriving DecidableEq, Repr

/-- A status notification recorded by the OCPP side. -/
structure StatusNotification where
  chargeBoxID : String
  timestamp : Nat
deriving DecidableEq, Repr

/-- Job result accumulator (`OCPIJobResult`). -/
structure OCPIJobResult where
  success : Nat := 0
  failure : Nat := 0
  total : Nat := 0
  logs : List String := []
  objectIDsInFailure : List String := []
  objectIDsInSuccess : List String := []
deriving DecidableEq, Repr

/-- The fresh accumulator every job starts from. -/
def emptyJobResult : OCPIJobResult := {}

/-! ## Token synchronizer (`pullTokens`) -/

/-- A page of the remote token listing: the decoded body's `data` array
plus the continuation URL extracted from the `link` response header by
`OCPIUtils.getNextUrl` (`none` when the header carries no next link). -/
structure TokenPage where
  tokens : List OCPIToken
  next : Option String
deriving DecidableEq, Repr

/-- `moment().utc().subtract(1, 'days').startOf('day')`: one day before
the call instant, truncated to the start of its UTC day (seconds). -/
def pullTokensDateFrom (now : Nat) : Nat :=
  ((now - 86400) / 86400) * 86400

/-- Initial page URL of `pullTokens` (source lines 61-67): when the pull
is partial (source parameter name: `partial`), scoped with `date_from`;
otherwise unscoped; both with `limit=100`. -/
def buildTokensUrl (base : String) (delta : Bool) (now : Nat) : String :=
  if delta then
    base ++ "?date_from=" ++ toString (pullTokensDateFrom now) ++ "&limit=100"
  else
    base ++ "?limit=100"

/-- The per-token loop of one page (source lines 113-126): a successful
upsert increments `success`, a failed upsert increments `failure`; both
append a log line; neither stops the loop.  `upsertOk` is the outcome
oracle for `OCPITokensService.updateToken`. -/
def processTokenPage (upsertOk : OCPIToken → Bool) : List OCPIToken → OCPIJobResult → OCPIJobResult
  | [], acc => acc
  | t :: ts, acc =>
    if upsertOk t then
      processTokenPage upsertOk ts
        { acc with success := acc.success + 1,
                   logs := acc.logs ++ ["Token " ++ t.uid ++ " successfully updated"] }
    else
      processTokenPage upsertOk ts
        { acc with failure := acc.failure + 1,
                   logs := acc.logs ++ ["Failure updating token:" ++ t.uid] }

/-- The page loop of `pullTokens` (source lines 68-133).  `fetch` is the
remote GET oracle; the returned flag is `true` when the loop exited via
its own termination guard (no next link, empty next link, or a next
link equal to the current URL) and `false` when the fuel ran out first.
Also returns the list of page URLs visited, in order. -/
def pullTokensGo (fetch : String → TokenPage) (upsertOk : OCPIToken → Bool) :
    Nat → String → OCPIJobResult → OCPIJobResult × List String × Bool
  | 0, _, acc => (acc, [], false)
  | fuel + 1, url, acc =>
    let page := fetch url
    let acc2 := processTokenPage upsertOk page.tokens acc
    match page.next with
    | some nextUrl =>
      if 0 < nextUrl.length ∧ nextUrl ≠ url then
        let rest := pullTokensGo fetch upsertOk fuel nextUrl acc2
        (rest.1, url :: rest.2.1, rest.2.2)
      else
        (acc2, [url], true)
    | none => (acc2, [url], true)

/-- `pullTokens` (source lines 52-135): build the initial URL, then run
the page loop starting from the empty job result. -/
def pullTokens (fetch : String → TokenPage) (upsertOk : OCPIToken → Bool)
    (delta : Bool) (now : Nat) (base : String) (fuel : Nat) :
    OCPIJobResult × List String × Bool :=
  pullTokensGo fetch upsertOk fuel (buildTokensUrl base delta now) emptyJobResult

/-- Well-formed finite page chain: each entry pairs a URL with the page
`fetch` serves at it; every page's next link points at the following
entry's URL (nonempty and different from the current URL), and the last
page's next link is absent, empty, or echoes its own URL. -/
def chainOk (fetch : String → TokenPage) : List (String × TokenPage) → Prop
  | [] => True
  | [(u, p)] => fetch u = p ∧ (p.next = none ∨ p.next = some "" ∨ p.next = some u)
  | (u, p) :: (u2, p2) :: rest =>
    fetch u = p ∧ p.next = some u2 ∧ 0 < u2.length ∧ u2 ≠ u ∧
      chainOk fetch ((u2, p2) :: rest)

/-! ## Session lifecycle (`startSession`, `updateSession`, `stopSession`, `postCdr`)

Each function returns the `Except`-style outcome of the source (errors
carry the `BackendError` message) paired with the trace of remote calls
actually issued.  The transport outcome of the one call a function makes
is a parameter `net`: `Except.error` models an axios throw routed
through `Utils.handleAxiosError` (which always raises), `Except.ok`
models a delivered response, of which only `status` and body presence
are ever inspected. -/

/-- A delivered HTTP response as the session/CDR push code sees it:
`status` plus whether `response.data` is truthy. -/
structure SessionCallResponse where
  status : Nat
  hasData : Bool
deriving DecidableEq, Repr

/-- The partial-update body sent by `updateSession` (source lines 315-322). -/
structure SessionPatchBody where
  kwh : Rat
  last_updated : Nat
  total_cost : Rat
  currency : String
  status : OCPISessionStatus
  charging_periods : List Nat
deriving DecidableEq, Repr

/-- A remote call issued by the session/CDR functions. -/
inductive RemoteCall where
  | putSession (url : String) (s : OCPISession)
  | patchSessionCall (url : String) (body : SessionPatchBody)
  | postCdrCall (url : String) (c : OCPICdr)
deriving DecidableEq, Repr

/-- `{sessionsUrl}/{countryCode}/{partyId}/{id}`. -/
def sessionUrl (base cc party id : String) : String :=
  base ++ "/" ++ cc ++ "/" ++ party ++ "/" ++ id

/-- The OCPI session object built by `startSession` (source lines
247-260).  `loc` is the location snapshot produced by the external
`OCPIMapping.convertChargingStationToOCPILocation`. -/
def buildStartSession (ocpiToken : OCPIToken) (tx : Transaction)
    (authorizationId : String) (loc : OCPILocation) : OCPISession :=
  { id := authorizationId
    start_datetime := tx.timestamp
    end_datetime := none
    kwh := 0
    total_cost := tx.currentCumulatedPrice
    auth_method := OCPIAuthMethod.authRequest
    auth_id := ocpiToken.auth_id
    location := loc
    currency := tx.priceUnit
    status := OCPISessionStatus.pending
    authorization_id := authorizationId
    last_updated := tx.timestamp
    charging_periods := none }

/-- `startSession` (source lines 233-295): PUT the built session at the
authorization id; on a delivered response (any status, any body) assign
`transaction.ocpiData = { session }` and return normally. -/
def startSession (ocpiToken : OCPIToken) (tx : Transaction) (authorizationId : String)
    (loc : OCPILocation) (base cc party : String)
    (net : Except String SessionCallResponse) :
    Except String Transaction × List RemoteCall :=
  let s := buildStartSession ocpiToken tx authorizationId loc
  let url := sessionUrl base cc party authorizationId
  match net with
  | .error e => (.error e, [RemoteCall.putSession url s])
  | .ok _ =>
    (.ok { tx with ocpiData := some ⟨some s, none, none, none⟩ },
     [RemoteCall.putSession url s])

/-- `updateSession` (source lines 297-361): precondition `ocpiData.session`
present, then PATCH the changed fields; a response with status other
than 200 or without a body raises. -/
def updateSession (tx : Transaction) (periods : List Nat) (base cc party : String)
    (net : Except String SessionCallResponse) :
    Except String Transaction × List RemoteCall :=
  match tx.ocpiData with
  | none => (.error "OCPI Session not started", [])
  | some d =>
    match d.session with
    | none => (.error "OCPI Session not started", [])
    | some s =>
      let url := sessionUrl base cc party s.id
      let s2 : OCPISession :=
        { s with kwh := (tx.currentTotalConsumptionWh : Rat) / 1000
                 last_updated := tx.currentTimestamp
                 total_cost := tx.currentCumulatedPrice
                 currency := tx.priceUnit
                 status := OCPISessionStatus.active
                 charging_periods := some periods }
      let body : SessionPatchBody :=
        ⟨s2.kwh, s2.last_updated, s2.total_cost, s2.currency, s2.status, periods⟩
      let calls := [RemoteCall.patchSessionCall url body]
      match net with
      | .error e => (.error e, calls)
      | .ok resp =>
        if resp.status = 200 ∧ resp.hasData = true then
          (.ok { tx with ocpiData := some { d with session := some s2 } }, calls)
        else
          (.error ("Patch Session failed with status " ++ toString resp.status), calls)

/-- `stopSession` (source lines 363-426): preconditions `ocpiData.session`
and `transaction.stop` present, then PUT the full completed session;
a response with status other than 200 or without a body raises. -/
def stopSession (tx : Transaction) (periods : List Nat) (base cc party : String)
    (net : Except String SessionCallResponse) :
    Except String Transaction × List RemoteCall :=
  match tx.ocpiData with
  | none => (.error "OCPI Session not started", [])
  | some d =>
    match d.session with
    | none => (.error "OCPI Session not started", [])
    | some s =>
      match tx.stop with
      | none => (.error "Transaction not stopped", [])
      | some st =>
        let url := sessionUrl base cc party s.id
        let s2 : OCPISession :=
          { s with kwh := (st.totalConsumptionWh : Rat) / 1000
                   total_cost := st.roundedPrice
                   end_datetime := some st.timestamp
                   last_updated := st.timestamp
                   status := OCPISessionStatus.completed
                   charging_periods := some periods }
        let calls := [RemoteCall.putSession url s2]
        match net with
        | .error e => (.error e, calls)
        | .ok resp =>
          if resp.status = 200 ∧ resp.hasData = true then
            (.ok { tx with ocpiData := some { d with session := some s2 } }, calls)
          else
            (.error ("Stop Session failed with status " ++ toString resp.status), calls)

/-- The CDR object built by `postCdr` (source lines 447-462): totals in
hours/kWh, cost floored at zero, currency defaulted when falsy. -/
def buildCdr (tx : Transaction) (s : OCPISession) (st : TransactionStop)
    (periods : List Nat) : OCPICdr :=
  { id := s.id
    start_date_time := tx.timestamp
    stop_date_time := st.timestamp
    total_parking_time := st.totalInactivitySecs
    total_time := (st.totalDurationSecs : Rat) / 3600
    total_energy := (st.totalConsumptionWh : Rat) / 1000
    total_cost := if 0 < st.roundedPrice then st.roundedPrice else 0
    currency := if tx.priceUnit ≠ "" then tx.priceUnit else ""
    auth_id := s.auth_id
    authorization_id := s.authorization_id
    auth_method := s.auth_method
    location := s.location
    charging_periods := periods
    last_updated := st.timestamp }

/-- `postCdr` (source lines 428-501): preconditions `ocpiData.session` and
`transaction.stop` present, then POST the derived CDR once. -/
def postCdr (tx : Transaction) (periods : List Nat) (cdrsUrl : String)
    (net : Except String SessionCallResponse) :
    Except String Transaction × List RemoteCall :=
  match tx.ocpiData with
  | none => (.error "Session not started", [])
  | some d =>
    match d.session with
    | none => (.error "Session not started", [])
    | some s =>
      match tx.stop with
      | none => (.error "Transaction not stopped", [])
      | some st =>
        let cdr := buildCdr tx s st periods
        let calls := [RemoteCall.postCdrCall cdrsUrl cdr]
        match net with
        | .error e => (.error e, calls)
        | .ok resp =>
          if resp.status = 200 ∧ resp.hasData = true then
            (.ok { tx with ocpiData := some { d with cdr := some cdr } }, calls)
          else
            (.error ("Post cdr failed with status " ++ toString resp.status), calls)

/-! ## CDR / session / location reconciliation -/

/-- The decoded body of a reconciliation GET: the OCPI envelope's
`status_code` and `data` payload, each possibly absent. -/
structure OCPIEnvelope (α : Type) where
  status_code : Option Nat
  payload : Option α
deriving DecidableEq, Repr

/-- A delivered reconciliation GET response: HTTP status plus the body
(`none` models a falsy `response.data`). -/
structure HttpGetResponse (α : Type) where
  status : Nat
  body : Option (OCPIEnvelope α)
deriving DecidableEq, Repr

/-- Outcome of a successful (non-throwing) `checkCdr` run: the returned
boolean, the possibly updated transaction, the CDRs re-POSTed, and
whether the transaction was saved to storage. -/
structure CheckCdrOut where
  confirmed : Bool
  tx : Transaction
  posts : List OCPICdr
  saved : Bool
deriving DecidableEq, Repr

/-- `checkCdr` (source lines 621-685): requires `ocpiData.cdr`; on a 200
response with a body whose `status_code` is 3001, re-POSTs the local
CDR (the resubmission call is awaited unguarded, so `resubmitOk = false`
models an axios throw that propagates) and returns `false`; on a 200
response with a body carrying a CDR payload, stamps `cdrCheckedOn`,
saves the transaction and returns `true`; anything else raises. -/
def checkCdr (tx : Transaction) (now : Nat) (resp : HttpGetResponse OCPICdr)
    (resubmitOk : Bool) : Except String CheckCdrOut :=
  match tx.ocpiData with
  | none => .error "ocpi data are missing"
  | some d =>
    match d.cdr with
    | none => .error "ocpi data are missing"
    | some cdr =>
      if resp.status = 200 then
        match resp.body with
        | some body =>
          if body.status_code = some 3001 then
            if resubmitOk then .ok ⟨false, tx, [cdr], false⟩
            else .error "resubmission transport error"
          else
            match body.payload with
            | some _ =>
              .ok ⟨true, { tx with ocpiData := some { d with cdrCheckedOn := some now } },
                   [], true⟩
            | none => .error "Invalid response from Check cdr"
        | none => .error "Invalid response from Check cdr"
      else .error "Invalid response from Check cdr"

/-- `checkSession` (source lines 687-738): requires `ocpiData.session`;
a 200 response with a session payload stamps `sessionCheckedOn`, saves
and returns `true`; anything else raises. -/
def checkSession (tx : Transaction) (now : Nat)
    (resp : HttpGetResponse OCPISession) : Except String Transaction :=
  match tx.ocpiData with
  | none => .error "ocpi data are missing"
  | some d =>
    match d.session with
    | none => .error "ocpi data are missing"
    | some _ =>
      if resp.status = 200 then
        match resp.body with
        | some body =>
          match body.payload with
          | some _ =>
            .ok { tx with ocpiData := some { d with sessionCheckedOn := some now } }
          | none => .error "Invalid response from Check session"
        | none => .error "Invalid response from Check session"
      else .error "Invalid response from Check session"

/-- `checkLocation` (source lines 814-862): a 200 response with a
location payload returns `true`; anything else raises. -/
def checkLocation (_loc : OCPILocation) (resp : HttpGetResponse OCPILocation) :
    Except String Bool :=
  if resp.status = 200 then
    match resp.body with
    | some body =>
      match body.payload with
      | some _ => .ok true
      | none => .error "Invalid response from Check location"
    | none => .error "Invalid response from Check location"
  else .error "Invalid response from Check location"

/-- Whether `checkCdr` would return `true` for this transaction, given
its response (and resubmission outcome) from the oracle. -/
def cdrItemConfirmed (now : Nat)
    (respOf : Transaction → HttpGetResponse OCPICdr × Bool) (tx : Transaction) : Bool :=
  match checkCdr tx now (respOf tx).1 (respOf tx).2 with
  | .ok o => o.confirmed
  | .error _ => false

/-- The sweep loop of `checkCdrs` (source lines 755-772): a `true` return
counts as success, a `false` return or a thrown error counts as failure
(errors also log); `total` is incremented for every transaction; the
loop never aborts on an item. -/
def checkCdrsGo (now : Nat) (respOf : Transaction → HttpGetResponse OCPICdr × Bool) :
    List Transaction → OCPIJobResult → OCPIJobResult
  | [], r => r
  | tx :: rest, r =>
    let r2 :=
      match checkCdr tx now (respOf tx).1 (respOf tx).2 with
      | .ok o =>
        if o.confirmed then
          { r with success := r.success + 1,
                   objectIDsInSuccess := r.objectIDsInSuccess ++ [toString tx.id] }
        else
          { r with failure := r.failure + 1,
                   objectIDsInFailure := r.objectIDsInFailure ++ [toString tx.id] }
      | .error msg =>
        { r with failure := r.failure + 1,
                 objectIDsInFailure := r.objectIDsInFailure ++ [toString tx.id],
                 logs := r.logs ++ ["Failure checking cdr for transaction:" ++
                                    toString tx.id ++ ":" ++ msg] }
    checkCdrsGo now respOf rest { r2 with total := r2.total + 1 }

/-- `checkCdrs` (source lines 740-774) over the not-yet-checked
transactions returned by storage. -/
def checkCdrs (txs : List Transaction) (now : Nat)
    (respOf : Transaction → HttpGetResponse OCPICdr × Bool) : OCPIJobResult :=
  checkCdrsGo now respOf txs emptyJobResult

/-- Whether `checkSession` succeeds for this transaction under the oracle. -/
def sessionItemOk (now : Nat) (respOf : Transaction → HttpGetResponse OCPISession)
    (tx : Transaction) : Bool :=
  match checkSession tx now (respOf tx) with
  | .ok _ => true
  | .error _ => false

/-- The sweep loop of `checkSessions` (source lines 791-810): transactions
without a stop record are skipped (only `total` is incremented). -/
def checkSessionsGo (now : Nat) (respOf : Transaction → HttpGetResponse OCPISession) :
    List Transaction → OCPIJobResult → OCPIJobResult
  | [], r => r
  | tx :: rest, r =>
    let r2 :=
      match tx.stop with
      | some _ =>
        match checkSession tx now (respOf tx) with
        | .ok _ =>
          { r with success := r.success + 1,
                   objectIDsInSuccess := r.objectIDsInSuccess ++ [toString tx.id] }
        | .error msg =>
          { r with failure := r.failure + 1,
                   objectIDsInFailure := r.objectIDsInFailure ++ [toString tx.id],
                   logs := r.logs ++ ["Failure checking session for transaction:" ++
                                      toString tx.id ++ ":" ++ msg] }
      | none => r
    checkSessionsGo now respOf rest { r2 with total := r2.total + 1 }

/-- `checkSessions` (source lines 776-812). -/
def checkSessions (txs : List Transaction) (now : Nat)
    (respOf : Transaction → HttpGetResponse OCPISession) : OCPIJobResult :=
  checkSessionsGo now respOf txs emptyJobResult

/-- The sweep loop of `checkLocations` (source lines 885-904): a null
location entry is skipped (only `total` is incremented). -/
def checkLocationsGo (respOf : OCPILocation → HttpGetResponse OCPILocation) :
    List (Option OCPILocation) → OCPIJobResult → OCPIJobResult
  | [], r => r
  | locOpt :: rest, r =>
    let r2 :=
      match locOpt with
      | some loc =>
        match checkLocation loc (respOf loc) with
        | .ok b =>
          if b then
            { r with success := r.success + 1,
                     objectIDsInSuccess := r.objectIDsInSuccess ++ [loc.id] }
          else
            { r with failure := r.failure + 1,
                     objectIDsInFailure := r.objectIDsInFailure ++ [loc.id] }
        | .error msg =>
          { r with failure := r.failure + 1,
                   objectIDsInFailure := r.objectIDsInFailure ++ [loc.id],
                   logs := r.logs ++ ["Failure checking location " ++ loc.id ++ ":" ++ msg] }
      | none => r
    checkLocationsGo respOf rest { r2 with total := r2.total + 1 }

/-- `checkLocations` (source lines 864-907). -/
def checkLocations (locs : List (Option OCPILocation))
    (respOf : OCPILocation → HttpGetResponse OCPILocation) : OCPIJobResult :=
  checkLocationsGo respOf locs emptyJobResult

/-! ## Status broadcast job (`sendEVSEStatuses`) -/

/-- `_.uniq`: remove duplicates keeping first occurrences. -/
def uniq (l : List String) : List String :=
  l.foldl (fun acc x => if x ∈ acc then acc else acc ++ [x]) []

/-- `getChargeBoxIDsInFailure` (source lines 1057-1062). -/
def getChargeBoxIDsInFailure (ep : OCPIEndpointModel) : List String :=
  match ep.lastPatchJobResult with
  | some r =>
    match r.chargeBoxIDsInFailure with
    | some ids => ids
    | none => []
  | none => []

/-- Modelled from the spec: `OCPPStorage.getStatusNotifications` (a MongoDB
storage layer not under src/) returns the status notifications recorded
since `dateFrom`, i.e. those with timestamp at or after it. -/
def getStatusNotifications (notifs : List StatusNotification) (dateFrom : Nat) :
    List StatusNotification :=
  notifs.filter (fun n => dateFrom ≤ n.timestamp)

/-- `getChargeBoxIDsWithNewStatusNotifications` (source lines 1033-1045):
the delta baseline is `lastPatchJobOn`, defaulting to the current time
when absent; returns the charge box ids of the notifications found. -/
def getChargeBoxIDsWithNewStatusNotifications (ep : OCPIEndpointModel) (now : Nat)
    (notifs : List StatusNotification) : List String :=
  let lastPatchJobOn := match ep.lastPatchJobOn with
    | some t => t
    | none => now
  let found := getStatusNotifications notifs lastPatchJobOn
  if 0 < found.length then found.map (fun n => n.chargeBoxID)
  else []

/-- The delta candidate set of `sendEVSEStatuses` (source lines 933-941):
deduplicated union of the previous run's failed charge boxes and the
charge boxes with a new status notification. -/
def chargeBoxIDsToProcess (ep : OCPIEndpointModel) (now : Nat)
    (notifs : List StatusNotification) : List String :=
  uniq (getChargeBoxIDsInFailure ep ++
        getChargeBoxIDsWithNewStatusNotifications ep now notifs)

/-- Accumulator of `sendEVSEStatuses` (its `sendResult` object). -/
structure SendEVSEResult where
  success : Nat := 0
  failure : Nat := 0
  total : Nat := 0
  logs : List String := []
  chargeBoxIDsInFailure : List String := []
  chargeBoxIDsInSuccess : List String := []
deriving DecidableEq, Repr

/-- The per-EVSE body of the broadcast loop (source lines 948-983):
count the EVSE in `total`; in delta mode skip charge boxes outside the
candidate set; patch only when the location id and EVSE uid are truthy;
record the patch attempt in the trace and its success or failure in the
counters and id lists.  (The best-effort operator notification has no
observable effect modelled here.) -/
def sendEVSEStatusEvseStep (allEVSEs : Bool) (cands : List String)
    (patchOk : String → String → Bool) (locId : String)
    (acc : SendEVSEResult × List (String × OCPIEvse)) (evse : OCPIEvse) :
    SendEVSEResult × List (String × OCPIEvse) :=
  let r := { acc.1 with total := acc.1.total + 1 }
  if allEVSEs = false ∧ evse.chargeBoxId ∉ cands then
    (r, acc.2)
  else if locId ≠ "" ∧ evse.uid ≠ "" then
    if patchOk locId evse.uid then
      ({ r with success := r.success + 1,
                chargeBoxIDsInSuccess := r.chargeBoxIDsInSuccess ++ [evse.chargeBoxId],
                logs := r.logs ++ ["Updated successfully status for locationID:" ++
                                   locId ++ " - evseID:" ++ evse.evse_id] },
       acc.2 ++ [(locId, evse)])
    else
      ({ r with failure := r.failure + 1,
                chargeBoxIDsInFailure := r.chargeBoxIDsInFailure ++ [evse.chargeBoxId],
                logs := r.logs ++ ["Failure updating status for locationID:" ++
                                   locId ++ " - evseID:" ++ evse.evse_id] },
       acc.2 ++ [(locId, evse)])
  else
    (r, acc.2)

/-- The per-location body of the broadcast loop (source lines 945-985):
locations that are null or carry no `evses` array contribute nothing. -/
def sendEVSEStatusLocStep (allEVSEs : Bool) (cands : List String)
    (patchOk : String → String → Bool)
    (acc : SendEVSEResult × List (String × OCPIEvse)) (locOpt : Option OCPILocation) :
    SendEVSEResult × List (String × OCPIEvse) :=
  match locOpt with
  | some loc =>
    match loc.evses with
    | some evs => evs.foldl (sendEVSEStatusEvseStep allEVSEs cands patchOk loc.id) acc
    | none => acc
  | none => acc

/-- `sendEVSEStatuses` (source lines 912-1030): compute the delta
candidate set when not processing all EVSEs, sweep every EVSE of every
location, then persist the run's start timestamp as `lastPatchJobOn`
and the deduplicated id lists and counts as `lastPatchJobResult`.
Returns the job result, the trace of EVSE patch attempts
(location id, EVSE), and the updated endpoint.  (The source's
`if (sendResult)` else-branch is dead: the accumulator object is always
truthy.) -/
def sendEVSEStatuses (ep : OCPIEndpointModel) (now : Nat)
    (notifs : List StatusNotification) (locations : List (Option OCPILocation))
    (patchOk : String → String → Bool) (processAllEVSEs : Bool) :
    SendEVSEResult × List (String × OCPIEvse) × OCPIEndpointModel :=
  let cands := if processAllEVSEs then [] else chargeBoxIDsToProcess ep now notifs
  let out := locations.foldl (sendEVSEStatusLocStep processAllEVSEs cands patchOk) ({}, [])
  let ep2 : OCPIEndpointModel :=
    { lastPatchJobOn := some now
      lastPatchJobResult := some
        { successNbr := out.1.success
          failureNbr := out.1.failure
          totalNbr := out.1.total
          chargeBoxIDsInFailure := some (uniq out.1.chargeBoxIDsInFailure)
          chargeBoxIDsInSuccess := uniq out.1.chargeBoxIDsInSuccess } }
  (out.1, out.2, ep2)

/-- The number of EVSEs the broadcast sweep counts in `total`: every EVSE
of every non-null location that carries an `evses` array. -/
def consideredEVSEs : List (Option OCPILocation) → Nat
  | [] => 0
  | some loc :: rest =>
    (match loc.evses with
     | some evs => evs.length
     | none => 0) + consideredEVSEs rest
  | none :: rest => consideredEVSEs rest

/-! ## Push-locations scheduler task (`OCPIPushLocationsTask.processOCPIEndpoint`) -/

/-- OCPI registration status enum (`OCPIRegistrationStatus`). -/
inductive OCPIRegistrationStatus where
  | unregistered
  | pending
  | registered
deriving DecidableEq, Repr

/-- The endpoint fields `processOCPIEndpoint` inspects. -/
structure TaskEndpoint where
  status : OCPIRegistrationStatus
  backgroundPatchJob : Bool
deriving DecidableEq, Repr

/-- Observable events of one `processOCPIEndpoint` run. -/
inductive PushTaskEvent where
  | lockAcquired
  | remoteJob
  | lockReleased
deriving DecidableEq, Repr

/-- The try-block of `processOCPIEndpoint` (source lines 42-79): early
return for an unregistered endpoint, early return for an inactive
background patch job, otherwise run `sendEVSEStatuses`; a thrown
job-level exception is caught and logged (second component). -/
def processOCPIEndpointBody (ep : TaskEndpoint) (jobThrows : Bool) :
    List PushTaskEvent × Bool :=
  if ep.status ≠ OCPIRegistrationStatus.registered then ([], false)
  else if ep.backgroundPatchJob = false then ([], false)
  else ([PushTaskEvent.remoteJob], jobThrows)

/-- `processOCPIEndpoint` (source lines 38-85): if the `(endpoint,
patch-locations)` lock is granted, run the body and release the lock in
a `finally`; if the lock is not granted, do nothing at all. -/
def processOCPIEndpoint (lockAvailable : Bool) (ep : TaskEndpoint)
    (jobThrows : Bool) : List PushTaskEvent :=
  if lockAvailable then
    PushTaskEvent.lockAcquired :: (processOCPIEndpointBody ep jobThrows).1 ++
      [PushTaskEvent.lockReleased]
  else []

/-! ## Concrete fixtures used to instantiate the theorems -/

/-- A location snapshot fixture. -/
def loc0 : OCPILocation := ⟨"L1", "Main site", none⟩

/-- A token fixture. -/
def tok0 : OCPIToken := ⟨"TAG1", "AUTH-A"⟩

/-- A CDR fixture. -/
def cdr0 : OCPICdr :=
  { id := "AUTH-A"
    start_date_time := 100
    stop_date_time := 200
    total_parking_time := 0
    total_time := 1
    total_energy := 2
    total_cost := 3
    currency := "EUR"
    auth_id := "AUTH-A"
    authorization_id := "AUTH-A"
    auth_method := OCPIAuthMethod.authRequest
    location := loc0
    charging_periods := []
    last_updated := 200 }

/-- A started session fixture. -/
def sess0 : OCPISession :=
  { id := "AUTH-A"
    start_datetime := 100
    end_datetime := none
    kwh := 0
    total_cost := 0
    auth_method := OCPIAuthMethod.authRequest
    auth_id := "AUTH-A"
    location := loc0
    currency := "EUR"
    status := OCPISessionStatus.pending
    authorization_id := "AUTH-A"
    last_updated := 100
    charging_periods := none }

/-- A base transaction fixture: not stopped, no OCPI data. -/
def txBase : Transaction :=
  { id := 1
    chargeBoxID := "CB1"
    connectorId := 1
    timestamp := 100
    currentCumulatedPrice := 0
    currentTotalConsumptionWh := 0
    currentTimestamp := 100
    priceUnit := "EUR"
    stop := none
    ocpiData := none }

/-- OCPI data holding a started session only. -/
def dSession : OcpiData := ⟨some sess0, none, none, none⟩

/-- OCPI data holding a posted CDR only. -/
def dCdr : OcpiData := ⟨none, some cdr0, none, none⟩

/-- A transaction with a started session but no stop record. -/
def txSessionNoStop : Transaction := { txBase with ocpiData := some dSession }

/-- A transaction with a posted CDR. -/
def txCdr : Transaction := { txBase with ocpiData := some dCdr }

/-- A transaction carrying a nonzero running price at session start. -/
def txPrice5 : Transaction := { txBase with currentCumulatedPrice := 5 }

/-- An endpoint whose previous broadcast run failed on charge box CP1. -/
def epFail1 : OCPIEndpointModel :=
  ⟨some 0, some ⟨0, 1, 1, some ["CP1"], []⟩⟩

/-- A fresh endpoint: no previous broadcast run recorded. -/
def epFresh : OCPIEndpointModel := ⟨none, none⟩

/-- An EVSE owned by CP1 whose uid is falsy. -/
def evseEmptyUid : OCPIEvse := ⟨"", "E1", "CP1", OCPIEvseStatus.available⟩

/-- A location tree containing only the falsy-uid EVSE of CP1. -/
def locsCex : List (Option OCPILocation) :=
  [some ⟨"L1", "Main site", some [evseEmptyUid]⟩]

/-- A remote serving a two-page token chain starting at the initial
full-pull URL for base `x`. -/
def fetch0 : String → TokenPage :=
  fun u => if u = "x?limit=100" then ⟨[tok0], some "pageB"⟩ else ⟨[], none⟩

/-- The tail of the chain `fetch0` serves. -/
def chain0tail : List (String × TokenPage) :=
  [("pageB", ⟨[], none⟩)]

/-- A remote serving a single last page holding one token. -/
def fetchOne : String → TokenPage := fun _ => ⟨[tok0], none⟩

/-- An upsert oracle that always succeeds. -/
def upsertAllOk : OCPIToken → Bool := fun _ => true

/-- A status notification recorded at time 5. -/
def notif5 : StatusNotification := ⟨"CP2", 5⟩

/-- A stop record fixture. -/
def stop0 : TransactionStop := ⟨200, 5000, 7, 0, 600⟩

/-- A stopped transaction with a started session. -/
def txStopped : Transaction :=
  { txBase with ocpiData := some dSession, stop := some stop0 }

/-! ## Helper lemmas -/

theorem mem_uniqAux : ∀ (l acc : List String) (a : String),
    (a ∈ List.foldl (fun acc x => if x ∈ acc then acc else acc ++ [x]) acc l ↔
      a ∈ acc ∨ a ∈ l)
  | [], acc, a => by simp
  | x :: xs, acc, a => by
    rw [List.foldl_cons]
    by_cases hx : x ∈ acc
    · rw [if_pos hx, mem_uniqAux xs acc a]
      constructor
      · rintro (h | h)
        · exact Or.inl h
        · exact Or.inr (List.mem_cons_of_mem _ h)
      · rintro (h | h)
        · exact Or.inl h
        · rcases List.mem_cons.mp h with h | h
          · exact Or.inl (h ▸ hx)
          · exact Or.inr h
    · rw [if_neg hx, mem_uniqAux xs (acc ++ [x]) a]
      simp [or_assoc]

theorem mem_uniq (l : List String) (a : String) : a ∈ uniq l ↔ a ∈ l := by
  unfold uniq
  rw [mem_uniqAux]
  simp

theorem processTokenPage_success (u : OCPIToken → Bool) :
    ∀ (ts : List OCPIToken) (acc : OCPIJobResult),
      (processTokenPage u ts acc).success = acc.success + ts.countP u
  | [], acc => by simp [processTokenPage]
  | t :: ts, acc => by
    by_cases h : u t
    · simp [processTokenPage, h, processTokenPage_success u ts, List.countP_cons, h]
      omega
    · simp [processTokenPage, h, processTokenPage_success u ts, List.countP_cons, h]

theorem processTokenPage_failure (u : OCPIToken → Bool) :
    ∀ (ts : List OCPIToken) (acc : OCPIJobResult),
      (processTokenPage u ts acc).failure = acc.failure + ts.countP (fun t => !u t)
  | [], acc => by simp [processTokenPage]
  | t :: ts, acc => by
    by_cases h : u t
    · simp [processTokenPage, h, processTokenPage_failure u ts, List.countP_cons, h]
    · simp [processTokenPage, h, processTokenPage_failure u ts, List.countP_cons, h]
      omega

theorem processTokenPage_total (u : OCPIToken → Bool) :
    ∀ (ts : List OCPIToken) (acc : OCPIJobResult),
      (processTokenPage u ts acc).total = acc.total
  | [], acc => by simp [processTokenPage]
  | t :: ts, acc => by
    by_cases h : u t
    · simp [processTokenPage, h, processTokenPage_total u ts]
    · simp [processTokenPage, h, processTokenPage_total u ts]

theorem pullTokensGo_total (f : String → TokenPage) (u : OCPIToken → Bool) :
    ∀ (fuel : Nat) (url : String) (acc : OCPIJobResult),
      (pullTokensGo f u fuel url acc).1.total = acc.total
  | 0, _, _ => rfl
  | fuel + 1, url, acc => by
    cases hn : (f url).next with
    | none =>
      simp only [pullTokensGo, hn]
      exact processTokenPage_total u (f url).tokens acc
    | some nextUrl =>
      by_cases hg : 0 < nextUrl.length ∧ nextUrl ≠ url
      · simp only [pullTokensGo, hn, if_pos hg]
        rw [pullTokensGo_total f u fuel nextUrl]
        exact processTokenPage_total u (f url).tokens acc
      · simp only [pullTokensGo, hn, if_neg hg]
        exact processTokenPage_total u (f url).tokens acc

theorem pullTokensGo_chain (f : String → TokenPage) (u : OCPIToken → Bool) :
    ∀ (chain : List (String × TokenPage)) (url : String) (p : TokenPage)
      (fuel : Nat) (acc : OCPIJobResult),
      chainOk f ((url, p) :: chain) →
      chain.length + 1 ≤ fuel →
      ∃ r, pullTokensGo f u fuel url acc = (r, ((url, p) :: chain).map Prod.fst, true)
  | [], url, p, fuel, acc, h, hfuel => by
    obtain ⟨hf, hterm⟩ : f url = p ∧
        (p.next = none ∨ p.next = some "" ∨ p.next = some url) := h
    cases fuel with
    | zero => omega
    | succ fuel =>
      rcases hterm with hn | hn | hn
      · exact ⟨processTokenPage u p.tokens acc, by simp only [pullTokensGo, hf, hn]; simp⟩
      · exact ⟨processTokenPage u p.tokens acc, by simp only [pullTokensGo, hf, hn]; simp⟩
      · refine ⟨processTokenPage u p.tokens acc, ?_⟩
        simp only [pullTokensGo, hf, hn]
        simp
  | (u2, p2) :: rest, url, p, fuel, acc, h, hfuel => by
    obtain ⟨hf, hn, hl, hne, hrest⟩ : f url = p ∧ p.next = some u2 ∧ 0 < u2.length ∧
        u2 ≠ url ∧ chainOk f ((u2, p2) :: rest) := h
    cases fuel with
    | zero => simp at hfuel
    | succ fuel =>
      obtain ⟨r, hr⟩ := pullTokensGo_chain f u rest u2 p2 fuel
        (processTokenPage u p.tokens acc) hrest (by simp at hfuel; omega)
      refine ⟨r, ?_⟩
      simp only [pullTokensGo, hf, hn, if_pos (And.intro hl hne), hr]
      simp

/-- C5: for any finite well-formed sequence of remote pages, `pullTokens`
visits each page exactly once (the visited URL list is exactly the
chain's URL list, page N+1 requested only after page N's tokens are
folded into the result) and the loop exits through its termination
guard: a last page with no next link, an empty next link, or a next
link identical to the current page URL. -/
theorem pullTokens_visits_chain_once (f : String → TokenPage) (u : OCPIToken → Bool)
    (base : String) (delta : Bool) (now : Nat) (p : TokenPage)
    (chain : List (String × TokenPage)) (fuel : Nat)
    (h : chainOk f ((buildTokensUrl base delta now, p) :: chain))
    (hfuel : chain.length + 1 ≤ fuel) :
    ∃ r, pullTokens f u delta now base fuel =
      (r, ((buildTokensUrl base delta now, p) :: chain).map Prod.fst, true) :=
  pullTokensGo_chain f u chain (buildTokensUrl base delta now) p fuel emptyJobResult h hfuel

/-- Witness for C5: a concrete two-page chain is traversed in order and
the loop terminates. -/
theorem pullTokens_visits_chain_once_witness :
    ∃ r, pullTokens fetch0 upsertAllOk false 0 "x" 2 =
      (r, ["x?limit=100", "pageB"], true) :=
  pullTokens_visits_chain_once fetch0 upsertAllOk "x" false 0
    ⟨[tok0], some "pageB"⟩ chain0tail 2
    (by
      simp only [chainOk, chain0tail]
      refine ⟨?_, ?_, ?_, ?_, ?_, Or.inl ?_⟩ <;> decide)
    (by decide)

/-- C7 (amended): for a partial pull the initial URL is scoped with a
`date_from` equal to the start of the UTC day containing the instant one
day before the call — a midnight between 24 and 48 hours before the
call, not exactly 24 hours before it — and page size 100; for a full
pull the initial URL is unscoped with the same page size. -/
theorem pullTokens_initial_url_scope (base : String) (now : Nat) (h : 86400 ≤ now) :
    86400 ∣ pullTokensDateFrom now ∧
    pullTokensDateFrom now + 86400 ≤ now ∧
    now < pullTokensDateFrom now + 2 * 86400 ∧
    buildTokensUrl base true now =
      base ++ "?date_from=" ++ toString (pullTokensDateFrom now) ++ "&limit=100" ∧
    buildTokensUrl base false now = base ++ "?limit=100" := by
  refine ⟨⟨(now - 86400) / 86400, by unfold pullTokensDateFrom; ring⟩, ?_, ?_, rfl, rfl⟩
  · unfold pullTokensDateFrom
    omega
  · unfold pullTokensDateFrom
    omega

/-- Witness for C7 at a concrete call instant 25 hours into the epoch. -/
theorem pullTokens_initial_url_scope_witness :
    86400 ∣ pullTokensDateFrom 90000 ∧
    pullTokensDateFrom 90000 + 86400 ≤ 90000 ∧
    90000 < pullTokensDateFrom 90000 + 2 * 86400 ∧
    buildTokensUrl "x" true 90000 =
      "x" ++ "?date_from=" ++ toString (pullTokensDateFrom 90000) ++ "&limit=100" ∧
    buildTokensUrl "x" false 90000 = "x" ++ "?limit=100" :=
  pullTokens_initial_url_scope "x" 90000 (by decide)

/-- Counterexample to C7 as stated: at call time 90000 (25 hours into
the epoch) the computed `date_from` is 0, the start of the previous UTC
day, not 3600 = exactly 24 hours before the call. -/
theorem pullTokens_dateFrom_not_24h_before :
    pullTokensDateFrom 90000 = 0 ∧ 90000 - 86400 = 3600 ∧
    pullTokensDateFrom 90000 ≠ 90000 - 86400 := by
  refine ⟨by decide, by decide, by decide⟩

theorem countP_partition {α : Type} (p : α → Bool) :
    ∀ l : List α, l.countP p + l.countP (fun a => !p a) = l.length
  | [] => by simp
  | a :: l => by
    have ih := countP_partition p l
    by_cases h : p a
    · simp [List.countP_cons, h]
      omega
    · simp [List.countP_cons, h]
      omega

theorem checkCdrsGo_total (now : Nat) (respOf : Transaction → HttpGetResponse OCPICdr × Bool) :
    ∀ (l : List Transaction) (r : OCPIJobResult),
      (checkCdrsGo now respOf l r).total = r.total + l.length
  | [], r => by simp [checkCdrsGo]
  | tx :: rest, r => by
    cases h : checkCdr tx now (respOf tx).1 (respOf tx).2 with
    | ok o =>
      by_cases hc : o.confirmed
      · simp only [checkCdrsGo, h, hc, if_true, checkCdrsGo_total now respOf rest]
        try simp
        all_goals omega
      · simp only [checkCdrsGo, h, hc, if_false, checkCdrsGo_total now respOf rest]
        try simp [hc]
        all_goals omega
    | error msg =>
      simp only [checkCdrsGo, h, checkCdrsGo_total now respOf rest]
      try simp
      all_goals omega

theorem checkCdrsGo_success (now : Nat) (respOf : Transaction → HttpGetResponse OCPICdr × Bool) :
    ∀ (l : List Transaction) (r : OCPIJobResult),
      (checkCdrsGo now respOf l r).success =
        r.success + l.countP (cdrItemConfirmed now respOf)
  | [], r => by simp [checkCdrsGo]
  | tx :: rest, r => by
    have hp : cdrItemConfirmed now respOf tx =
        match checkCdr tx now (respOf tx).1 (respOf tx).2 with
        | .ok o => o.confirmed
        | .error _ => false := rfl
    cases h : checkCdr tx now (respOf tx).1 (respOf tx).2 with
    | ok o =>
      by_cases hc : o.confirmed
      · simp only [checkCdrsGo, h, hc, if_true, checkCdrsGo_success now respOf rest,
          List.countP_cons, hp, h]
        try simp [hc]
        all_goals omega
      · simp only [checkCdrsGo, h, hc, if_false, checkCdrsGo_success now respOf rest,
          List.countP_cons, hp, h]
        try simp [hc]
        all_goals omega
    | error msg =>
      simp only [checkCdrsGo, h, checkCdrsGo_success now respOf rest,
        List.countP_cons, hp, h]
      try simp
      all_goals omega

theorem checkCdrsGo_failure (now : Nat) (respOf : Transaction → HttpGetResponse OCPICdr × Bool) :
    ∀ (l : List Transaction) (r : OCPIJobResult),
      (checkCdrsGo now respOf l r).failure =
        r.failure + l.countP (fun tx => !cdrItemConfirmed now respOf tx)
  | [], r => by simp [checkCdrsGo]
  | tx :: rest, r => by
    have hp : cdrItemConfirmed now respOf tx =
        match checkCdr tx now (respOf tx).1 (respOf tx).2 with
        | .ok o => o.confirmed
        | .error _ => false := rfl
    cases h : checkCdr tx now (respOf tx).1 (respOf tx).2 with
    | ok o =>
      by_cases hc : o.confirmed
      · simp only [checkCdrsGo, h, hc, if_true, checkCdrsGo_failure now respOf rest,
          List.countP_cons, hp, h]
        try simp [hc]
        all_goals omega
      · simp only [checkCdrsGo, h, hc, if_false, checkCdrsGo_failure now respOf rest,
          List.countP_cons, hp, h]
        try simp [hc]
        all_goals omega
    | error msg =>
      simp only [checkCdrsGo, h, checkCdrsGo_failure now respOf rest,
        List.countP_cons, hp, h]
      try simp
      all_goals omega

theorem checkSessionsGo_total (now : Nat) (respOf : Transaction → HttpGetResponse OCPISession) :
    ∀ (l : List Transaction) (r : OCPIJobResult),
      (checkSessionsGo now respOf l r).total = r.total + l.length
  | [], r => by simp [checkSessionsGo]
  | tx :: rest, r => by
    cases hs : tx.stop with
    | none =>
      simp only [checkSessionsGo, hs, checkSessionsGo_total now respOf rest]
      try simp
      all_goals omega
    | some st =>
      cases h : checkSession tx now (respOf tx) with
      | ok tx2 =>
        simp only [checkSessionsGo, hs, h, checkSessionsGo_total now respOf rest]
        try simp
        all_goals omega
      | error msg =>
        simp only [checkSessionsGo, hs, h, checkSessionsGo_total now respOf rest]
        try simp
        all_goals omega

theorem checkSessionsGo_sf (now : Nat) (respOf : Transaction → HttpGetResponse OCPISession) :
    ∀ (l : List Transaction) (r : OCPIJobResult),
      (checkSessionsGo now respOf l r).success + (checkSessionsGo now respOf l r).failure =
        r.success + r.failure + l.countP (fun tx => tx.stop.isSome)
  | [], r => by simp [checkSessionsGo]
  | tx :: rest, r => by
    cases hs : tx.stop with
    | none =>
      simp only [checkSessionsGo, hs, checkSessionsGo_sf now respOf rest,
        List.countP_cons, hs]
      try simp
      all_goals omega
    | some st =>
      cases h : checkSession tx now (respOf tx) with
      | ok tx2 =>
        simp only [checkSessionsGo, hs, h, checkSessionsGo_sf now respOf rest,
          List.countP_cons, hs]
        try simp
        all_goals omega
      | error msg =>
        simp only [checkSessionsGo, hs, h, checkSessionsGo_sf now respOf rest,
          List.countP_cons, hs]
        try simp
        all_goals omega

theorem checkLocationsGo_total (respOf : OCPILocation → HttpGetResponse OCPILocation) :
    ∀ (l : List (Option OCPILocation)) (r : OCPIJobResult),
      (checkLocationsGo respOf l r).total = r.total + l.length
  | [], r => by simp [checkLocationsGo]
  | locOpt :: rest, r => by
    cases locOpt with
    | none =>
      simp only [checkLocationsGo, checkLocationsGo_total respOf rest]
      try simp
      all_goals omega
    | some loc =>
      cases h : checkLocation loc (respOf loc) with
      | ok b =>
        by_cases hb : b
        · simp only [checkLocationsGo, h, hb, if_true, checkLocationsGo_total respOf rest]
          try simp
          all_goals omega
        · simp only [checkLocationsGo, h, checkLocationsGo_total respOf rest]
          try simp [hb]
          all_goals omega
      | error msg =>
        simp only [checkLocationsGo, h, checkLocationsGo_total respOf rest]
        try simp
        all_goals omega

theorem checkLocationsGo_sf (respOf : OCPILocation → HttpGetResponse OCPILocation) :
    ∀ (l : List (Option OCPILocation)) (r : OCPIJobResult),
      (checkLocationsGo respOf l r).success + (checkLocationsGo respOf l r).failure =
        r.success + r.failure + l.countP (fun locOpt => locOpt.isSome)
  | [], r => by simp [checkLocationsGo]
  | locOpt :: rest, r => by
    cases locOpt with
    | none =>
      simp only [checkLocationsGo, checkLocationsGo_sf respOf rest, List.countP_cons]
      try simp
      all_goals omega
    | some loc =>
      cases h : checkLocation loc (respOf loc) with
      | ok b =>
        by_cases hb : b
        · simp only [checkLocationsGo, h, hb, if_true, checkLocationsGo_sf respOf rest,
            List.countP_cons]
          try simp
          all_goals omega
        · simp only [checkLocationsGo, h, checkLocationsGo_sf respOf rest,
            List.countP_cons]
          try simp [hb]
          all_goals omega
      | error msg =>
        simp only [checkLocationsGo, h, checkLocationsGo_sf respOf rest,
          List.countP_cons]
        try simp
        all_goals omega

theorem evseStep_total (allE : Bool) (cands : List String)
    (patchOk : String → String → Bool) (locId : String)
    (acc : SendEVSEResult × List (String × OCPIEvse)) (e : OCPIEvse) :
    (sendEVSEStatusEvseStep allE cands patchOk locId acc e).1.total = acc.1.total + 1 := by
  unfold sendEVSEStatusEvseStep
  repeat' split
  all_goals rfl

theorem evseStep_sf (allE : Bool) (cands : List String)
    (patchOk : String → String → Bool) (locId : String)
    (acc : SendEVSEResult × List (String × OCPIEvse)) (e : OCPIEvse) :
    (sendEVSEStatusEvseStep allE cands patchOk locId acc e).1.success +
      (sendEVSEStatusEvseStep allE cands patchOk locId acc e).1.failure ≤
      acc.1.success + acc.1.failure + 1 := by
  unfold sendEVSEStatusEvseStep
  repeat' split
  all_goals simp
  all_goals omega

theorem evseFold_total (allE : Bool) (cands : List String)
    (patchOk : String → String → Bool) (locId : String) :
    ∀ (evs : List OCPIEvse) (acc : SendEVSEResult × List (String × OCPIEvse)),
      (evs.foldl (sendEVSEStatusEvseStep allE cands patchOk locId) acc).1.total =
        acc.1.total + evs.length
  | [], acc => by simp
  | e :: evs, acc => by
    rw [List.foldl_cons, evseFold_total allE cands patchOk locId evs, evseStep_total]
    simp
    omega

theorem evseFold_sf (allE : Bool) (cands : List String)
    (patchOk : String → String → Bool) (locId : String) :
    ∀ (evs : List OCPIEvse) (acc : SendEVSEResult × List (String × OCPIEvse)),
      (evs.foldl (sendEVSEStatusEvseStep allE cands patchOk locId) acc).1.success +
        (evs.foldl (sendEVSEStatusEvseStep allE cands patchOk locId) acc).1.failure ≤
        acc.1.success + acc.1.failure + evs.length
  | [], acc => by simp
  | e :: evs, acc => by
    rw [List.foldl_cons]
    have h1 := evseFold_sf allE cands patchOk locId evs
      (sendEVSEStatusEvseStep allE cands patchOk locId acc e)
    have h2 := evseStep_sf allE cands patchOk locId acc e
    simp only [List.length_cons]
    omega

theorem locStep_total (allE : Bool) (cands : List String)
    (patchOk : String → String → Bool)
    (acc : SendEVSEResult × List (String × OCPIEvse)) (locOpt : Option OCPILocation) :
    (sendEVSEStatusLocStep allE cands patchOk acc locOpt).1.total =
      acc.1.total + (match locOpt with
        | some loc => (match loc.evses with | some evs => evs.length | none => 0)
        | none => 0) := by
  cases locOpt with
  | none => simp [sendEVSEStatusLocStep]
  | some loc =>
    cases he : loc.evses with
    | none => simp [sendEVSEStatusLocStep, he]
    | some evs => simp [sendEVSEStatusLocStep, he, evseFold_total]

theorem locStep_sf (allE : Bool) (cands : List String)
    (patchOk : String → String → Bool)
    (acc : SendEVSEResult × List (String × OCPIEvse)) (locOpt : Option OCPILocation) :
    (sendEVSEStatusLocStep allE cands patchOk acc locOpt).1.success +
      (sendEVSEStatusLocStep allE cands patchOk acc locOpt).1.failure ≤
      acc.1.success + acc.1.failure + (match locOpt with
        | some loc => (match loc.evses with | some evs => evs.length | none => 0)
        | none => 0) := by
  cases locOpt with
  | none => simp [sendEVSEStatusLocStep]
  | some loc =>
    cases he : loc.evses with
    | none => simp [sendEVSEStatusLocStep, he]
    | some evs =>
      simpa [sendEVSEStatusLocStep, he] using evseFold_sf allE cands patchOk loc.id evs acc

theorem locFold_total (allE : Bool) (cands : List String)
    (patchOk : String → String → Bool) :
    ∀ (locs : List (Option OCPILocation)) (acc : SendEVSEResult × List (String × OCPIEvse)),
      (locs.foldl (sendEVSEStatusLocStep allE cands patchOk) acc).1.total =
        acc.1.total + consideredEVSEs locs
  | [], acc => by simp [consideredEVSEs]
  | locOpt :: rest, acc => by
    rw [List.foldl_cons, locFold_total allE cands patchOk rest, locStep_total]
    cases locOpt with
    | none => simp [consideredEVSEs]
    | some loc =>
      cases he : loc.evses with
      | none => simp [consideredEVSEs, he]
      | some evs =>
        simp [consideredEVSEs, he]
        omega

theorem locFold_sf (allE : Bool) (cands : List String)
    (patchOk : String → String → Bool) :
    ∀ (locs : List (Option OCPILocation)) (acc : SendEVSEResult × List (String × OCPIEvse)),
      (locs.foldl (sendEVSEStatusLocStep allE cands patchOk) acc).1.success +
        (locs.foldl (sendEVSEStatusLocStep allE cands patchOk) acc).1.failure ≤
        acc.1.success + acc.1.failure + consideredEVSEs locs
  | [], acc => by simp [consideredEVSEs]
  | locOpt :: rest, acc => by
    rw [List.foldl_cons]
    have h1 := locFold_sf allE cands patchOk rest
      (sendEVSEStatusLocStep allE cands patchOk acc locOpt)
    have h2 := locStep_sf allE cands patchOk acc locOpt
    cases locOpt with
    | none =>
      simp only [consideredEVSEs] at *
      omega
    | some loc =>
      cases he : loc.evses with
      | none =>
        simp only [consideredEVSEs, he] at *
        omega
      | some evs =>
        simp only [consideredEVSEs, he] at *
        omega

theorem evseStep_trace (allE : Bool) (cands : List String)
    (patchOk : String → String → Bool) (locId : String)
    (acc : SendEVSEResult × List (String × OCPIEvse)) (e : OCPIEvse)
    (pr : String × OCPIEvse) :
    pr ∈ (sendEVSEStatusEvseStep allE cands patchOk locId acc e).2 ↔
      pr ∈ acc.2 ∨ (pr = (locId, e) ∧ (allE = true ∨ e.chargeBoxId ∈ cands) ∧
        locId ≠ "" ∧ e.uid ≠ "") := by
  unfold sendEVSEStatusEvseStep
  by_cases h1 : allE = false ∧ e.chargeBoxId ∉ cands
  · rw [if_pos h1]
    have hno : ¬(allE = true ∨ e.chargeBoxId ∈ cands) := by
      rcases h1 with ⟨ha, hb⟩
      subst ha
      simp [hb]
    simp only []
    tauto
  · rw [if_neg h1]
    have hcond : allE = true ∨ e.chargeBoxId ∈ cands := by
      by_cases ha : allE = true
      · exact Or.inl ha
      · right
        by_contra hm
        exact h1 ⟨by revert ha; cases allE <;> simp, hm⟩
    by_cases h2 : locId ≠ "" ∧ e.uid ≠ ""
    · rw [if_pos h2]
      by_cases h3 : patchOk locId e.uid
      · rw [if_pos h3]
        simp only [List.mem_append, List.mem_singleton]
        tauto
      · rw [if_neg h3]
        simp only [List.mem_append, List.mem_singleton]
        tauto
    · rw [if_neg h2]
      simp only []
      tauto

theorem evseFold_trace (allE : Bool) (cands : List String)
    (patchOk : String → String → Bool) (locId : String) :
    ∀ (evs : List OCPIEvse) (acc : SendEVSEResult × List (String × OCPIEvse))
      (pr : String × OCPIEvse),
      pr ∈ (evs.foldl (sendEVSEStatusEvseStep allE cands patchOk locId) acc).2 ↔
        pr ∈ acc.2 ∨ ∃ e ∈ evs, pr = (locId, e) ∧
          (allE = true ∨ e.chargeBoxId ∈ cands) ∧ locId ≠ "" ∧ e.uid ≠ ""
  | [], acc, pr => by simp
  | e :: evs, acc, pr => by
    rw [List.foldl_cons, evseFold_trace allE cands patchOk locId evs, evseStep_trace]
    constructor
    · rintro ((h | h) | ⟨e2, he2, hrest⟩)
      · exact Or.inl h
      · exact Or.inr ⟨e, List.mem_cons_self e evs, h⟩
      · exact Or.inr ⟨e2, List.mem_cons_of_mem e he2, hrest⟩
    · rintro (h | ⟨e2, he2, hrest⟩)
      · exact Or.inl (Or.inl h)
      · rcases List.mem_cons.mp he2 with he2 | he2
      -- he2 : e2 = e or e2 ∈ evs
        · exact Or.inl (Or.inr (he2 ▸ hrest))
        · exact Or.inr ⟨e2, he2, hrest⟩

theorem locStep_trace (allE : Bool) (cands : List String)
    (patchOk : String → String → Bool)
    (acc : SendEVSEResult × List (String × OCPIEvse)) (locOpt : Option OCPILocation)
    (pr : String × OCPIEvse) :
    pr ∈ (sendEVSEStatusLocStep allE cands patchOk acc locOpt).2 ↔
      pr ∈ acc.2 ∨ ∃ loc, locOpt = some loc ∧ ∃ evs, loc.evses = some evs ∧
        ∃ e ∈ evs, pr = (loc.id, e) ∧ (allE = true ∨ e.chargeBoxId ∈ cands) ∧
          loc.id ≠ "" ∧ e.uid ≠ "" := by
  cases locOpt with
  | none => simp [sendEVSEStatusLocStep]
  | some loc =>
    cases he : loc.evses with
    | none => simp [sendEVSEStatusLocStep, he]
    | some evs =>
      simp only [sendEVSEStatusLocStep, he]
      rw [evseFold_trace]
      simp [he]

theorem locFold_trace (allE : Bool) (cands : List String)
    (patchOk : String → String → Bool) :
    ∀ (locs : List (Option OCPILocation)) (acc : SendEVSEResult × List (String × OCPIEvse))
      (pr : String × OCPIEvse),
      pr ∈ (locs.foldl (sendEVSEStatusLocStep allE cands patchOk) acc).2 ↔
        pr ∈ acc.2 ∨ ∃ loc, (some loc) ∈ locs ∧ ∃ evs, loc.evses = some evs ∧
          ∃ e ∈ evs, pr = (loc.id, e) ∧ (allE = true ∨ e.chargeBoxId ∈ cands) ∧
            loc.id ≠ "" ∧ e.uid ≠ ""
  | [], acc, pr => by simp
  | locOpt :: locs, acc, pr => by
    rw [List.foldl_cons, locFold_trace allE cands patchOk locs, locStep_trace]
    constructor
    · rintro ((h | ⟨loc, hloc, hrest⟩) | ⟨loc, hloc, hrest⟩)
      · exact Or.inl h
      · exact Or.inr ⟨loc, hloc ▸ List.mem_cons_self locOpt locs, hrest⟩
      · exact Or.inr ⟨loc, List.mem_cons_of_mem locOpt hloc, hrest⟩
    · rintro (h | ⟨loc, hloc, hrest⟩)
      · exact Or.inl (Or.inl h)
      · rcases List.mem_cons.mp hloc with hloc | hloc
        · exact Or.inl (Or.inr ⟨loc, hloc.symm, hrest⟩)
        · exact Or.inr ⟨loc, hloc, hrest⟩

/-- C1 (amended): in a delta run, the set of EVSE patch attempts is
exactly the EVSEs of the location tree whose owning charge point lies in
the deduplicated union of the previous run's failure list and the charge
points with a new status notification, *and* whose location id and EVSE
uid are both truthy; in a full run every EVSE with truthy location id
and uid is patched.  The second conjunct characterizes the candidate set
as that deduplicated union. -/
theorem sendEVSEStatuses_delta_selection (ep : OCPIEndpointModel) (now : Nat)
    (notifs : List StatusNotification) (locations : List (Option OCPILocation))
    (patchOk : String → String → Bool) (full : Bool) :
    (∀ pr : String × OCPIEvse,
      pr ∈ (sendEVSEStatuses ep now notifs locations patchOk full).2.1 ↔
        ∃ loc, (some loc) ∈ locations ∧ ∃ evs, loc.evses = some evs ∧
          ∃ e ∈ evs, pr = (loc.id, e) ∧
            (full = true ∨ e.chargeBoxId ∈ chargeBoxIDsToProcess ep now notifs) ∧
            loc.id ≠ "" ∧ e.uid ≠ "") ∧
    (∀ cb, cb ∈ chargeBoxIDsToProcess ep now notifs ↔
      cb ∈ getChargeBoxIDsInFailure ep ∨
      cb ∈ getChargeBoxIDsWithNewStatusNotifications ep now notifs) := by
  constructor
  · intro pr
    cases full with
    | true =>
      show pr ∈ (locations.foldl (sendEVSEStatusLocStep true [] patchOk) ({}, [])).2 ↔ _
      rw [locFold_trace]
      simp
    | false =>
      show pr ∈ (locations.foldl
        (sendEVSEStatusLocStep false (chargeBoxIDsToProcess ep now notifs) patchOk)
        ({}, [])).2 ↔ _
      rw [locFold_trace]
      simp
  · intro cb
    unfold chargeBoxIDsToProcess
    rw [mem_uniq]
    exact List.mem_append

/-- Counterexample to C1 as stated: a delta run on an endpoint whose
previous failure list contains CP1 and a tree holding a CP1 EVSE with a
falsy uid patches nothing, although CP1 is in the candidate union. -/
theorem sendEVSEStatuses_skips_falsy_uid :
    "CP1" ∈ chargeBoxIDsToProcess epFail1 10 [] ∧
    evseEmptyUid.chargeBoxId = "CP1" ∧
    (sendEVSEStatuses epFail1 10 [] locsCex (fun _ _ => true) false).2.1 = [] := by
  refine ⟨by decide, by decide, by decide⟩

/-- C9: when the endpoint has no `lastPatchJobOn`, the delta baseline
defaults to the current time, so no status notification recorded before
the call is selected; the candidate set then reduces to the deduplicated
previous failure list, itself empty on a first-ever run. -/
theorem firstDelta_selects_no_past_notifications (ep : OCPIEndpointModel) (now : Nat)
    (notifs : List StatusNotification)
    (h : ep.lastPatchJobOn = none)
    (hpast : ∀ n ∈ notifs, n.timestamp < now) :
    getChargeBoxIDsWithNewStatusNotifications ep now notifs = [] ∧
    chargeBoxIDsToProcess ep now notifs = uniq (getChargeBoxIDsInFailure ep) ∧
    (ep.lastPatchJobResult = none → chargeBoxIDsToProcess ep now notifs = []) := by
  have hempty : getStatusNotifications notifs now = [] := by
    rw [getStatusNotifications, List.filter_eq_nil]
    intro n hn
    simp only [decide_eq_true_eq]
    exact Nat.not_le.mpr (hpast n hn)
  have hnew : getChargeBoxIDsWithNewStatusNotifications ep now notifs = [] := by
    unfold getChargeBoxIDsWithNewStatusNotifications
    rw [h]
    simp [hempty]
  refine ⟨hnew, ?_, ?_⟩
  · unfold chargeBoxIDsToProcess
    rw [hnew, List.append_nil]
  · intro hres
    unfold chargeBoxIDsToProcess
    rw [hnew, List.append_nil]
    unfold getChargeBoxIDsInFailure
    rw [hres]
    rfl

/-- Witness for C9: a fresh endpoint with one status notification
recorded before the run selects nothing and processes no charge box. -/
theorem firstDelta_selects_no_past_notifications_witness :
    getChargeBoxIDsWithNewStatusNotifications epFresh 10 [notif5] = [] ∧
    chargeBoxIDsToProcess epFresh 10 [notif5] = uniq (getChargeBoxIDsInFailure epFresh) ∧
    (epFresh.lastPatchJobResult = none → chargeBoxIDsToProcess epFresh 10 [notif5] = []) :=
  firstDelta_selects_no_past_notifications epFresh 10 [notif5] rfl
    (by intro n hn; simp only [List.mem_singleton] at hn; subst hn; decide)

/-- C2 (amended): in every batch job a failing item never stops the
sweep — the counters are exact item counts over the whole input list —
and in `checkCdrs`, `checkSessions`, `checkLocations` and
`sendEVSEStatuses` the final `total` equals the number of items
considered with `success + failure ≤ total`; `pullTokens` however never
increments `total` (it stays at its initial value), while its per-page
loop still counts every token of the page into `success`/`failure`. -/
theorem batch_jobs_partial_failure_isolation :
    (∀ (txs : List Transaction) (now : Nat)
       (respOf : Transaction → HttpGetResponse OCPICdr × Bool),
       (checkCdrs txs now respOf).total = txs.length ∧
       (checkCdrs txs now respOf).success = txs.countP (cdrItemConfirmed now respOf) ∧
       (checkCdrs txs now respOf).success + (checkCdrs txs now respOf).failure =
         (checkCdrs txs now respOf).total) ∧
    (∀ (txs : List Transaction) (now : Nat)
       (respOf : Transaction → HttpGetResponse OCPISession),
       (checkSessions txs now respOf).total = txs.length ∧
       (checkSessions txs now respOf).success + (checkSessions txs now respOf).failure =
         txs.countP (fun tx => tx.stop.isSome) ∧
       (checkSessions txs now respOf).success + (checkSessions txs now respOf).failure ≤
         (checkSessions txs now respOf).total) ∧
    (∀ (locs : List (Option OCPILocation))
       (respOf : OCPILocation → HttpGetResponse OCPILocation),
       (checkLocations locs respOf).total = locs.length ∧
       (checkLocations locs respOf).success + (checkLocations locs respOf).failure ≤
         (checkLocations locs respOf).total) ∧
    (∀ (ep : OCPIEndpointModel) (now : Nat) (notifs : List StatusNotification)
       (locations : List (Option OCPILocation)) (patchOk : String → String → Bool)
       (full : Bool),
       (sendEVSEStatuses ep now notifs locations patchOk full).1.total =
         consideredEVSEs locations ∧
       (sendEVSEStatuses ep now notifs locations patchOk full).1.success +
         (sendEVSEStatuses ep now notifs locations patchOk full).1.failure ≤
         (sendEVSEStatuses ep now notifs locations patchOk full).1.total) ∧
    (∀ (f : String → TokenPage) (u : OCPIToken → Bool) (fuel : Nat) (url : String)
       (acc : OCPIJobResult),
       (pullTokensGo f u fuel url acc).1.total = acc.total) ∧
    (∀ (u : OCPIToken → Bool) (ts : List OCPIToken) (acc : OCPIJobResult),
       (processTokenPage u ts acc).success = acc.success + ts.countP u ∧
       (processTokenPage u ts acc).failure =
         acc.failure + ts.countP (fun t => !u t)) := by
  have e0s : emptyJobResult.success = 0 := rfl
  have e0f : emptyJobResult.failure = 0 := rfl
  have e0t : emptyJobResult.total = 0 := rfl
  refine ⟨?_, ?_, ?_, ?_, ?_, ?_⟩
  · intro txs now respOf
    have h1 := checkCdrsGo_total now respOf txs emptyJobResult
    have h2 := checkCdrsGo_success now respOf txs emptyJobResult
    have h3 := checkCdrsGo_failure now respOf txs emptyJobResult
    have h4 := countP_partition (cdrItemConfirmed now respOf) txs
    rw [e0t] at h1
    rw [e0s] at h2
    rw [e0f] at h3
    unfold checkCdrs
    refine ⟨by omega, by omega, by omega⟩
  · intro txs now respOf
    have h1 := checkSessionsGo_total now respOf txs emptyJobResult
    have h2 := checkSessionsGo_sf now respOf txs emptyJobResult
    have h3 := List.countP_le_length (p := fun tx => tx.stop.isSome) (l := txs)
    rw [e0t] at h1
    rw [e0s, e0f] at h2
    unfold checkSessions
    refine ⟨by omega, by omega, by omega⟩
  · intro locs respOf
    have h1 := checkLocationsGo_total respOf locs emptyJobResult
    have h2 := checkLocationsGo_sf respOf locs emptyJobResult
    have h3 := List.countP_le_length (p := fun locOpt => locOpt.isSome) (l := locs)
    rw [e0t] at h1
    rw [e0s, e0f] at h2
    unfold checkLocations
    refine ⟨by omega, by omega⟩
  · intro ep now notifs locations patchOk full
    have hfst : (sendEVSEStatuses ep now notifs locations patchOk full).1 =
        (locations.foldl (sendEVSEStatusLocStep full
          (if full then [] else chargeBoxIDsToProcess ep now notifs) patchOk)
          ({}, [])).1 := rfl
    have h1 := locFold_total full
      (if full then [] else chargeBoxIDsToProcess ep now notifs) patchOk locations ({}, [])
    have h2 := locFold_sf full
      (if full then [] else chargeBoxIDsToProcess ep now notifs) patchOk locations ({}, [])
    rw [hfst]
    simp only [show ((({} : SendEVSEResult), ([] : List (String × OCPIEvse))).1).total = 0
      from rfl] at h1
    simp only [show ((({} : SendEVSEResult), ([] : List (String × OCPIEvse))).1).success = 0
        from rfl,
      show ((({} : SendEVSEResult), ([] : List (String × OCPIEvse))).1).failure = 0
        from rfl] at h2
    refine ⟨by omega, by omega⟩
  · intro f u fuel url acc
    exact pullTokensGo_total f u fuel url acc
  · intro u ts acc
    exact ⟨processTokenPage_success u ts acc, processTokenPage_failure u ts acc⟩

/-- Counterexample to C2 as stated: a `pullTokens` run over a single
page with one successfully upserted token ends with `success = 1` but
`total = 0`, so `success + failure ≤ total` fails. -/
theorem pullTokens_total_never_incremented :
    (pullTokensGo fetchOne upsertAllOk 1 "u0" emptyJobResult).1.success = 1 ∧
    (pullTokensGo fetchOne upsertAllOk 1 "u0" emptyJobResult).1.total = 0 ∧
    ¬((pullTokensGo fetchOne upsertAllOk 1 "u0" emptyJobResult).1.success +
        (pullTokensGo fetchOne upsertAllOk 1 "u0" emptyJobResult).1.failure ≤
        (pullTokensGo fetchOne upsertAllOk 1 "u0" emptyJobResult).1.total) := by
  refine ⟨by decide, by decide, by decide⟩

/-- C8: the status-broadcast task runs `sendEVSEStatuses` only between
acquiring and releasing the per-(endpoint, patch-locations) lease; the
lease is released as the last action on every exit path (early return
for an unregistered endpoint, early return for an inactive background
job, normal completion, and a caught job-level exception); when the
lease is unavailable the run performs nothing at all. -/
theorem pushLocationsTask_lock_discipline (lockAvailable : Bool) (ep : TaskEndpoint)
    (jobThrows : Bool) :
    (lockAvailable = false → processOCPIEndpoint lockAvailable ep jobThrows = []) ∧
    (lockAvailable = true → processOCPIEndpoint lockAvailable ep jobThrows =
      PushTaskEvent.lockAcquired ::
        (if ep.status = OCPIRegistrationStatus.registered ∧ ep.backgroundPatchJob = true
         then [PushTaskEvent.remoteJob] else []) ++ [PushTaskEvent.lockReleased]) := by
  constructor
  · intro h
    subst h
    rfl
  · intro h
    subst h
    unfold processOCPIEndpoint processOCPIEndpointBody
    by_cases h1 : ep.status = OCPIRegistrationStatus.registered
    · by_cases h2 : ep.backgroundPatchJob = true
      · simp [h1, h2]
      · have h2f : ep.backgroundPatchJob = false := by
          revert h2
          cases ep.backgroundPatchJob <;> simp
        simp [h1, h2f]
    · simp [h1]

/-- Witness for C8: with the lease unavailable nothing happens; with the
lease available on a registered, active endpoint whose job throws, the
trace is acquire, job, release. -/
theorem pushLocationsTask_lock_discipline_witness :
    processOCPIEndpoint false ⟨OCPIRegistrationStatus.registered, true⟩ false = [] ∧
    processOCPIEndpoint true ⟨OCPIRegistrationStatus.registered, true⟩ true =
      [PushTaskEvent.lockAcquired, PushTaskEvent.remoteJob, PushTaskEvent.lockReleased] := by
  constructor
  · exact (pushLocationsTask_lock_discipline false
      ⟨OCPIRegistrationStatus.registered, true⟩ false).1 rfl
  · have h := (pushLocationsTask_lock_discipline true
      ⟨OCPIRegistrationStatus.registered, true⟩ true).2 rfl
    simpa using h

/-- C3 (amended): for a transaction with a posted CDR, `checkCdr` splits
on the GET response in order: an HTTP 200 whose body's status code is
3001 triggers exactly one resubmission POST of the local CDR and returns
false (not confirmed, not an error), provided the resubmission call
itself completes at the transport level; an HTTP 200 whose body carries
a CDR payload (and no 3001 code) stamps `cdrCheckedOn`, saves the
transaction and returns true; every other response raises.  A body
status code of 3001 under any HTTP status other than 200 raises instead
of resubmitting. -/
theorem checkCdr_three_way (tx : Transaction) (d : OcpiData) (cdr : OCPICdr) (now : Nat)
    (resp : HttpGetResponse OCPICdr) (resubmitOk : Bool)
    (hd : tx.ocpiData = some d) (hc : d.cdr = some cdr) :
    (resp.status = 200 → ∀ body, resp.body = some body → body.status_code = some 3001 →
      resubmitOk = true →
      checkCdr tx now resp resubmitOk = .ok ⟨false, tx, [cdr], false⟩) ∧
    (resp.status = 200 → ∀ body, resp.body = some body → body.status_code ≠ some 3001 →
      ∀ c, body.payload = some c →
      checkCdr tx now resp resubmitOk =
        .ok ⟨true, { tx with ocpiData := some { d with cdrCheckedOn := some now } },
             [], true⟩) ∧
    ((resp.status ≠ 200 ∨ resp.body = none ∨
      ∃ body, resp.body = some body ∧ body.status_code ≠ some 3001 ∧ body.payload = none) →
      ∃ msg, checkCdr tx now resp resubmitOk = .error msg) := by
  refine ⟨?_, ?_, ?_⟩
  · intro hs body hb h3001 hres
    simp [checkCdr, hd, hc, hs, hb, h3001, hres]
  · intro hs body hb h3001 c hp
    simp [checkCdr, hd, hc, hs, hb, h3001, hp]
  · rintro (hs | hb | ⟨body, hb, h3001, hp⟩)
    · exact ⟨"Invalid response from Check cdr", by simp [checkCdr, hd, hc, hs]⟩
    · by_cases hs : resp.status = 200
      · exact ⟨"Invalid response from Check cdr", by simp [checkCdr, hd, hc, hs, hb]⟩
      · exact ⟨"Invalid response from Check cdr", by simp [checkCdr, hd, hc, hs]⟩
    · by_cases hs : resp.status = 200
      · exact ⟨"Invalid response from Check cdr",
          by simp [checkCdr, hd, hc, hs, hb, h3001, hp]⟩
      · exact ⟨"Invalid response from Check cdr", by simp [checkCdr, hd, hc, hs]⟩

/-- Witness for C3: a 200 response carrying a CDR payload confirms the
CDR, stamping and saving the transaction. -/
theorem checkCdr_three_way_witness :
    checkCdr txCdr 7 ⟨200, some ⟨none, some cdr0⟩⟩ true =
      .ok ⟨true, { txCdr with ocpiData := some { dCdr with cdrCheckedOn := some 7 } },
           [], true⟩ :=
  (checkCdr_three_way txCdr dCdr cdr0 7 ⟨200, some ⟨none, some cdr0⟩⟩ true rfl rfl).2.1
    rfl ⟨none, some cdr0⟩ rfl (by simp) cdr0 rfl

/-- Counterexample to C3 as stated: a response whose body carries status
code 3001 but whose HTTP status is 201 (a non-200 success the transport
does not reject) raises instead of resubmitting and returning false. -/
theorem checkCdr_3001_under_non200_raises :
    (⟨201, some ⟨some 3001, none⟩⟩ : HttpGetResponse OCPICdr).body =
      some ⟨some 3001, none⟩ ∧
    checkCdr txCdr 7 ⟨201, some ⟨some 3001, none⟩⟩ true =
      .error "Invalid response from Check cdr" ∧
    checkCdr txCdr 7 ⟨201, some ⟨some 3001, none⟩⟩ true ≠
      .ok ⟨false, txCdr, [cdr0], false⟩ := by
  refine ⟨rfl, rfl, ?_⟩
  intro h
  rw [show checkCdr txCdr 7 ⟨201, some ⟨some 3001, none⟩⟩ true =
    .error "Invalid response from Check cdr" from rfl] at h
  exact Except.noConfusion h

/-- C4: `updateSession` and `stopSession` on a transaction with no prior
started OCPI session raise the precondition error and issue no remote
call; `stopSession` and `postCdr` on a transaction with a session but no
stop record raise the precondition error and issue no remote call. -/
theorem lifecycle_preconditions (periods : List Nat) (base cc party cdrsUrl : String)
    (net : Except String SessionCallResponse) :
    (∀ tx : Transaction, tx.ocpiData = none →
      updateSession tx periods base cc party net = (.error "OCPI Session not started", []) ∧
      stopSession tx periods base cc party net = (.error "OCPI Session not started", [])) ∧
    (∀ (tx : Transaction) (d : OcpiData), tx.ocpiData = some d → d.session = none →
      updateSession tx periods base cc party net = (.error "OCPI Session not started", []) ∧
      stopSession tx periods base cc party net = (.error "OCPI Session not started", [])) ∧
    (∀ (tx : Transaction) (d : OcpiData) (s : OCPISession),
      tx.ocpiData = some d → d.session = some s → tx.stop = none →
      stopSession tx periods base cc party net = (.error "Transaction not stopped", []) ∧
      postCdr tx periods cdrsUrl net = (.error "Transaction not stopped", [])) := by
  refine ⟨?_, ?_, ?_⟩
  · intro tx h
    exact ⟨by simp [updateSession, h], by simp [stopSession, h]⟩
  · intro tx d hd hs
    exact ⟨by simp [updateSession, hd, hs], by simp [stopSession, hd, hs]⟩
  · intro tx d s hd hs hstop
    exact ⟨by simp [stopSession, hd, hs, hstop], by simp [postCdr, hd, hs, hstop]⟩

/-- Witness for C4: concrete transactions without a session and without
a stop record hit the precondition errors with an empty call trace. -/
theorem lifecycle_preconditions_witness :
    updateSession txBase [] "b" "FR" "PTY" (.ok ⟨200, true⟩) =
      (.error "OCPI Session not started", []) ∧
    stopSession txSessionNoStop [] "b" "FR" "PTY" (.ok ⟨200, true⟩) =
      (.error "Transaction not stopped", []) ∧
    postCdr txSessionNoStop [] "cdrs" (.ok ⟨200, true⟩) =
      (.error "Transaction not stopped", []) := by
  obtain ⟨h1, h2, h3⟩ :=
    lifecycle_preconditions [] "b" "FR" "PTY" "cdrs" (.ok ⟨200, true⟩)
  exact ⟨(h1 txBase rfl).1,
    (h3 txSessionNoStop dSession sess0 rfl rfl rfl).1,
    (h3 txSessionNoStop dSession sess0 rfl rfl rfl).2⟩

/-- C6 (amended): `startSession` builds the remote session in state
PENDING with zero energy, but with `total_cost` equal to the
transaction's running cumulated price — not necessarily zero — with both
`id` and `authorization_id` equal to the authorization id, and creates
it with a PUT at that id. -/
theorem startSession_builds_pending_put (tok : OCPIToken) (tx : Transaction)
    (authId : String) (loc : OCPILocation) (base cc party : String)
    (net : Except String SessionCallResponse) :
    (buildStartSession tok tx authId loc).id = authId ∧
    (buildStartSession tok tx authId loc).authorization_id = authId ∧
    (buildStartSession tok tx authId loc).status = OCPISessionStatus.pending ∧
    (buildStartSession tok tx authId loc).kwh = 0 ∧
    (buildStartSession tok tx authId loc).total_cost = tx.currentCumulatedPrice ∧
    (startSession tok tx authId loc base cc party net).2 =
      [RemoteCall.putSession (sessionUrl base cc party authId)
        (buildStartSession tok tx authId loc)] := by
  refine ⟨rfl, rfl, rfl, rfl, rfl, ?_⟩
  cases net <;> rfl

/-- Counterexample to C6 as stated: a transaction whose running
cumulated price is 5 yields a created session with `total_cost = 5`,
not 0. -/
theorem startSession_cost_not_zero :
    (buildStartSession tok0 txPrice5 "AUTH-A" loc0).total_cost = 5 ∧
    (buildStartSession tok0 txPrice5 "AUTH-A" loc0).total_cost ≠ 0 := by
  refine ⟨rfl, by decide⟩

/-- C10: `startSession` returns normally and stores the built session in
`transaction.ocpiData` for every delivered response, never inspecting
its status or body, whereas `updateSession` and `stopSession` raise
whenever the delivered response's status is not 200 or its body is
absent. -/
theorem startSession_ignores_response (tok : OCPIToken) (tx : Transaction)
    (authId : String) (loc : OCPILocation) (base cc party : String)
    (periods : List Nat) :
    (∀ resp : SessionCallResponse,
      startSession tok tx authId loc base cc party (.ok resp) =
        (.ok { tx with
            ocpiData := some
              (OcpiData.mk (some (buildStartSession tok tx authId loc)) none none none) },
         [RemoteCall.putSession (sessionUrl base cc party authId)
            (buildStartSession tok tx authId loc)])) ∧
    (∀ (d : OcpiData) (s : OCPISession), tx.ocpiData = some d → d.session = some s →
      ∀ resp : SessionCallResponse, ¬(resp.status = 200 ∧ resp.hasData = true) →
        (∃ msg, (updateSession tx periods base cc party (.ok resp)).1 = .error msg) ∧
        (∀ st, tx.stop = some st →
          ∃ msg, (stopSession tx periods base cc party (.ok resp)).1 = .error msg)) := by
  constructor
  · intro resp
    rfl
  · intro d s hd hs resp hresp
    constructor
    · exact ⟨"Patch Session failed with status " ++ toString resp.status,
        by simp [updateSession, hd, hs, hresp]⟩
    · intro st hst
      exact ⟨"Stop Session failed with status " ++ toString resp.status,
        by simp [stopSession, hd, hs, hst, hresp]⟩

/-- Witness for C10: a delivered 500 response without a body makes
`startSession` succeed while `updateSession` and `stopSession` raise. -/
theorem startSession_ignores_response_witness :
    startSession tok0 txStopped "AUTH-A" loc0 "b" "FR" "PTY" (.ok ⟨500, false⟩) =
      (.ok { txStopped with
          ocpiData := some
            (OcpiData.mk (some (buildStartSession tok0 txStopped "AUTH-A" loc0)) none none none) },
       [RemoteCall.putSession (sessionUrl "b" "FR" "PTY" "AUTH-A")
          (buildStartSession tok0 txStopped "AUTH-A" loc0)]) ∧
    (∃ msg, (updateSession txStopped [] "b" "FR" "PTY" (.ok ⟨500, false⟩)).1 =
      .error msg) ∧
    (∃ msg, (stopSession txStopped [] "b" "FR" "PTY" (.ok ⟨500, false⟩)).1 =
      .error msg) := by
  obtain ⟨h1, h2⟩ :=
    startSession_ignores_response tok0 txStopped "AUTH-A" loc0 "b" "FR" "PTY" []
  obtain ⟨hu, hs⟩ := h2 dSession sess0 rfl rfl ⟨500, false⟩ (by simp)
  exact ⟨h1 ⟨500, false⟩, hu, hs stop0 rfl⟩

end EvServer
